import Mathlib

/-!
Verification development for the pptx-to-html5 converter.

Part 1 embeds `src/src/pptx_tools/converter.py` (the converter module present
in the source tree): slide-content extraction, slide-image data URIs, the
HTML generation with its page-title policy, the conversion entry point over an
explicit filesystem model, the constructor's error taxonomy, and the
client-side navigation state machine emitted into the script asset.

Part 2 models, from the specification, the paragraph-aware extractor module
(`pptx_to_html5/converter.py`) that the repository's tests and CLI import but
whose source file is not in the tree: shape classification, quarter-height
title inference, image format sniffing, and special-character normalization.
-/

namespace Pptx

/-- A shape as the extractor sees it (`_extract_slide_content`, lines 76–84):
`hasText` models `hasattr(shape, "text")`, `text` the `shape.text` value, and
`hasTextFrame` models `hasattr(shape, "text_frame")`. -/
structure SrcShape where
  hasText : Bool
  text : String
  hasTextFrame : Bool
deriving DecidableEq, Repr

/-- The dictionary built by `_extract_slide_content` (lines 69–73):
keys `title`, `text`, `notes`. -/
structure SlideContent where
  title : String
  text : List String
  notes : String
deriving DecidableEq, Repr

/-- Removal of leading and trailing whitespace from a character list. -/
def stripChars (l : List Char) : List Char :=
  ((l.dropWhile Char.isWhitespace).reverse.dropWhile Char.isWhitespace).reverse

/-- Executable model of Python `str.strip()`: drop surrounding whitespace. -/
def pyStrip (s : String) : String :=
  String.mk (stripChars s.data)

/-- One iteration of the shape loop (lines 76–84). Python truthiness of a
string is non-emptiness; `pyStrip` models `str.strip()`. -/
def extractStep (acc : SlideContent) (sh : SrcShape) : SlideContent :=
  if sh.hasText ∧ sh.text ≠ "" then
    let text := pyStrip sh.text
    if text ≠ "" then
      if acc.title = "" ∧ sh.hasTextFrame then
        { acc with title := text }
      else
        { acc with text := acc.text ++ [text] }
    else acc
  else acc

/-- A slide as the extractor sees it: its shape collection and the notes
accessors used at lines 87–90 (`has_notes_slide`, the truthiness of
`notes_slide.notes_text_frame`, and that frame's text). -/
structure SrcSlide where
  shapes : List SrcShape
  hasNotesSlide : Bool
  hasNotesTextFrame : Bool
  notesText : String
deriving DecidableEq, Repr

/-- `_extract_slide_content` (lines 60–92): fold the shape loop from the empty
content record, then fill `notes` when the slide has a notes slide with a
truthy text frame. -/
def extract_slide_content (s : SrcSlide) : SlideContent :=
  let base := s.shapes.foldl extractStep ⟨"", [], ""⟩
  if s.hasNotesSlide ∧ s.hasNotesTextFrame then
    { base with notes := pyStrip s.notesText }
  else base

/-- `_slide_to_image` (lines 38–58): the returned data URI is the fixed PNG
prefix followed by the base64 payload of the PIL-encoded placeholder image
(line 58's f-string); `payload` stands for that base64 text. -/
def slide_to_image (payload : String) : String :=
  "data:image/png;base64," ++ payload

/-- One element of `slides_data` (lines 116–122). -/
structure SlideData where
  number : Nat
  image : String
  title : String
  text : List String
  notes : String
deriving DecidableEq, Repr

/-- Build one `slide_data` dictionary (lines 115–122): notes are zeroed when
`include_notes` is false. -/
def slideData (payload : String) (includeNotes : Bool) (i : Nat)
    (s : SrcSlide) : SlideData :=
  let c := extract_slide_content s
  { number := i + 1
    image := slide_to_image payload
    title := c.title
    text := c.text
    notes := if includeNotes then c.notes else "" }

/-- The `for i, slide in enumerate(self.presentation.slides)` loop
(lines 113–123), with the running index made explicit. -/
def slidesDataAux (payload : String) (includeNotes : Bool) :
    Nat → List SrcSlide → List SlideData
  | _, [] => []
  | i, s :: rest =>
      slideData payload includeNotes i s ::
        slidesDataAux payload includeNotes (i + 1) rest

/-- The page title computed at lines 213–217: the first slide's extracted
title when `slides_data` is non-empty and that title is truthy, else the
literal fallback. -/
def page_title (slides_data : List SlideData) : String :=
  match slides_data with
  | [] => "Presentation"
  | d :: _ => if d.title ≠ "" then d.title else "Presentation"

/-- The fixed part of the template before the slide loop (lines 155–166),
with the page title spliced in where the template writes its title
expression. -/
def htmlHead (title : String) : String :=
  "<!DOCTYPE html>\n<html lang=\"en\">\n<head>\n    <meta charset=\"UTF-8\">\n    <meta name=\"viewport\" content=\"width=device-width, initial-scale=1.0\">\n    <title>" ++ title ++ "</title>\n    <link rel=\"stylesheet\" href=\"styles.css\">\n</head>\n<body>\n    <div class=\"presentation-container\">\n        <div class=\"slides-wrapper\">\n"

/-- One slide container from the template loop (lines 166–192): the first
slide gets the extra `active` class, and the title, image, text and notes
blocks are emitted under the same conditions as the template's guards. -/
def renderSlideDiv (includeNotes : Bool) (first : Bool) (d : SlideData) : String :=
  "            <div class=\"slide" ++ (if first then " active" else "") ++
    "\" data-slide=\"" ++ toString d.number ++ "\">\n" ++
  "                <div class=\"slide-content\">\n" ++
  (if d.title ≠ "" then
    "                    <h1 class=\"slide-title\">" ++ d.title ++ "</h1>\n"
   else "") ++
  (if d.image ≠ "" then
    "                    <div class=\"slide-image\">\n                        <img src=\"" ++
      d.image ++ "\" alt=\"Slide " ++ toString d.number ++
      "\">\n                    </div>\n"
   else "") ++
  (if d.text ≠ [] then
    "                    <div class=\"slide-text\">\n" ++
      String.join (d.text.map (fun t => "                        <p>" ++ t ++ "</p>\n")) ++
      "                    </div>\n"
   else "") ++
  (if includeNotes ∧ d.notes ≠ "" then
    "                    <div class=\"slide-notes\">\n                        <h3>Speaker Notes:</h3>\n                        <p>" ++
      d.notes ++ "</p>\n                    </div>\n"
   else "") ++
  "                </div>\n            </div>\n"

/-- The template's slide loop: `loop.first` is true exactly for the head of
the list. -/
def renderSlides (includeNotes : Bool) : List SlideData → String
  | [] => ""
  | d :: rest =>
      renderSlideDiv includeNotes true d ++
        String.join (rest.map (renderSlideDiv includeNotes false))

/-- The fixed part of the template after the slide loop (lines 193–210),
with the slide count spliced in where the template writes its length
expression. -/
def htmlTail (total : Nat) : String :=
  "        </div>\n\n        <div class=\"controls\">\n            <button id=\"prevBtn\" class=\"nav-btn\">← Previous</button>\n            <span class=\"slide-counter\">\n                <span id=\"currentSlide\">1</span> / <span id=\"totalSlides\">" ++
  toString total ++
  "</span>\n            </span>\n            <button id=\"nextBtn\" class=\"nav-btn\">Next →</button>\n        </div>\n\n        <div class=\"progress-bar\">\n            <div class=\"progress-fill\" id=\"progressFill\"></div>\n        </div>\n    </div>\n\n    <script src=\"script.js\"></script>\n</body>\n</html>"

/-- `_generate_html` (lines 142–221): render the template against the slide
data, the page-title policy of lines 213–217 included. -/
def generate_html (slides_data : List SlideData) (includeNotes : Bool) : String :=
  htmlHead (page_title slides_data) ++ renderSlides includeNotes slides_data ++
    htmlTail slides_data.length

/-- `_generate_css` (lines 223–449): a fixed, parameter-free stylesheet
string. Its body is abridged to a class-name skeleton: no claim depends on
the stylesheet text, only on the asset being written as `styles.css`. -/
def generate_css : String :=
  ".slide .slide-title .slide-image .slide-text .slide-notes .nav-btn .progress-bar"

/-- `_generate_js` (lines 451–562): a fixed, parameter-free script string.
Its body is abridged to an identifier skeleton: the navigation logic the
claims are about is embedded below as `nextSlide`, `previousSlide`,
`goToSlide`; no claim depends on the script text itself. -/
def generate_js : String :=
  "currentSlide totalSlides updateSlide nextSlide previousSlide goToSlide"

/-- The scripts initial slide index (`let currentSlide = 1`, line 458). -/
def currentSlideInit : Int := 1

/-- `nextSlide()` from the script asset (lines 535–540). -/
def nextSlide (total cur : Int) : Int :=
  if cur < total then cur + 1 else cur

/-- `previousSlide()` from the script asset (lines 542–547). -/
def previousSlide (cur : Int) : Int :=
  if cur > 1 then cur - 1 else cur

/-- `goToSlide(slideNumber)` from the script asset (lines 549–554). -/
def goToSlide (total cur n : Int) : Int :=
  if 1 ≤ n ∧ n ≤ total then n else cur

/-- The constructor's error taxonomy (lines 23–36): `FileNotFoundError`
versus `ValueError`, each carrying its message. -/
inductive CtorError where
  | fileNotFound (msg : String)
  | invalidValue (msg : String)
deriving DecidableEq, Repr

/-- The parsed presentation object: its ordered slide collection. -/
structure SrcPresentation where
  slides : List SrcSlide
deriving DecidableEq, Repr

/-- `PowerPointToHTML5Converter.__init__` (lines 17–36): existence check,
then the lower-cased-suffix check, then the guarded parse whose failure
diagnostic is wrapped into the `ValueError` message. -/
def initConverter (pathExists : Bool) (suffixLower : String) (pathStr : String)
    (parse : Except String SrcPresentation) : Except CtorError SrcPresentation :=
  if ¬ pathExists then
    .error (.fileNotFound ("File not found: " ++ pathStr))
  else if suffixLower ≠ ".pptx" then
    .error (.invalidValue ("File must be a .pptx file: " ++ pathStr))
  else
    match parse with
    | .error e => .error (.invalidValue ("Invalid PowerPoint file: " ++ e))
    | .ok p => .ok p

/-- Filesystem model for `convert`: the set of existing directories and a
name-to-content file map. -/
structure FS where
  dirs : List String
  files : List (String × String)
deriving DecidableEq, Repr

/-- Environment oracle deciding which filesystem operations succeed, so the
OSError branches of `mkdir` and `write_text` are represented. -/
structure IOOracle where
  mkdirOk : Bool
  writeOk : String → Bool

/-- `output_path.mkdir(parents=True, exist_ok=True)` (line 110): idempotent
creation, or an OSError. -/
def mkdirP (o : IOOracle) (dir : String) (fs : FS) : Except String FS :=
  if o.mkdirOk then
    .ok { fs with dirs := if dir ∈ fs.dirs then fs.dirs else dir :: fs.dirs }
  else .error ("OSError: cannot create directory " ++ dir)

/-- `path.write_text(content)` (lines 128, 133, 138): overwrite the file or
fail with an OSError. -/
def writeText (o : IOOracle) (name content : String) (fs : FS) : Except String FS :=
  if o.writeOk name then
    .ok { fs with files := (name, content) :: fs.files.filter (fun p => p.1 != name) }
  else .error ("OSError: cannot write " ++ name)

/-- Read back a file from the model filesystem. -/
def readFile (fs : FS) (name : String) : Option String :=
  (fs.files.find? (fun p => p.1 == name)).map Prod.snd

/-- `convert` (lines 94–140): create the output directory, write the three
artifacts in order, return the path of the markup file; any failing step
propagates its error. -/
def convert (o : IOOracle) (outDir : String) (payload : String)
    (slides : List SrcSlide) (includeNotes : Bool) (fs : FS) :
    Except String (FS × String) :=
  match mkdirP o outDir fs with
  | .error e => .error e
  | .ok fs1 =>
    let html := generate_html (slidesDataAux payload includeNotes 0 slides) includeNotes
    match writeText o (outDir ++ "/index.html") html fs1 with
    | .error e => .error e
    | .ok fs2 =>
      match writeText o (outDir ++ "/styles.css") generate_css fs2 with
      | .error e => .error e
      | .ok fs3 =>
        match writeText o (outDir ++ "/script.js") generate_js fs3 with
        | .error e => .error e
        | .ok fs4 => .ok (fs4, outDir ++ "/index.html")

/-- The markup produced by a conversion, with the source file's stem as an
explicit argument: `convert` has `self.pptx_path` available, but
`_generate_html` receives only the slide data and the notes flag
(lines 126, 219–221), so the stem cannot influence the markup. -/
def convertMarkup (sourceStem : String) (payload : String)
    (slides : List SrcSlide) (includeNotes : Bool) : String :=
  generate_html (slidesDataAux payload includeNotes 0 slides) includeNotes

/-- Modelled from the spec: section 4.1a of the spec describes the
special-character normalization of the paragraph-aware extractor module
(`pptx_to_html5/converter.py`, imported by the tests and the CLI but absent
from the source tree). Fixed 8-entry table mapping private-use code points to
standard Unicode equivalents: right/left/up/down arrow, two bullet variants,
check mark, cross mark. The concrete private-use keys are representative —
the spec names the glyph set, not the code points. -/
def specialCharTable : List (Char × Char) :=
  [('\uF0E0', '→'), ('\uF0DF', '←'), ('\uF0E1', '↑'), ('\uF0E2', '↓'),
   ('\uF0B7', '•'), ('\uF0A7', '▪'), ('\uF0FC', '✓'), ('\uF0FB', '✗')]

/-- Substitute one character through the table, leaving characters outside
the table unchanged. -/
def substChar (c : Char) : Char :=
  ((specialCharTable.find? (fun p => p.1 == c)).map Prod.snd).getD c

/-- Modelled from the spec: the normalization is a straight character
replacement over the whole string, with no overlapping patterns
(spec section 4.1a). -/
def normalizeSpecial (s : String) : String :=
  String.mk (s.data.map substChar)

/-- Boolean prefix test on byte lists. -/
def bytesPre : List Nat → List Nat → Bool
  | [], _ => true
  | _ :: _, [] => false
  | a :: as, b :: bs => a == b && bytesPre as bs

/-- Modelled from the spec: image format sniffing by magic bytes
(spec section 4.1 rule 3) in the extractor module absent from the source
tree — leading bytes 89 50 4E 47 give PNG, leading bytes FF D8 give JPEG,
anything else defaults to PNG. -/
def sniffFormat (bytes : List Nat) : String :=
  if bytesPre [0x89, 0x50, 0x4E, 0x47] bytes then "png"
  else if bytesPre [0xFF, 0xD8] bytes then "jpeg"
  else "png"

/-- The media type placed in a picture's data URI. -/
def pictureMediaType (bytes : List Nat) : String :=
  "image/" ++ sniffFormat bytes

/-- Modelled from the spec: the self-describing data URI
`data:image/<format>;base64,<payload>` of spec section 4.1 rule 3;
`payload` stands for the base64 text of the image bytes. -/
def pictureDataUri (bytes : List Nat) (payload : String) : String :=
  "data:" ++ pictureMediaType bytes ++ ";base64," ++ payload

/-- Nullable shape geometry (spec section 3: left/top/width/height, each
independently absent). -/
structure Geom where
  left : Option Int
  top : Option Int
  width : Option Int
  height : Option Int
deriving DecidableEq, Repr

/-- The four shape kinds of the spec's ShapeRecord tagged variant. -/
inductive SKind where
  | text
  | picture
  | autoshape
  | unknown
deriving DecidableEq, Repr

/-- Modelled from the spec: a source shape as the paragraph-aware extractor
sees it (spec sections 3 and 6) — geometry, the discriminants driving the
ordered classification of section 4.1, and the kind-specific accessors. -/
structure ExtShape where
  geom : Geom
  exposesText : Bool
  text : String
  isAutoKind : Bool
  autoType : Option (String × Int)
  isPictureKind : Bool
  hasImageAccessor : Bool
  imageBytes : Option (List Nat)
  imageB64 : String
deriving DecidableEq, Repr

/-- Modelled from the spec: the per-shape classification order of section
4.1, first matching rule wins — text, then autoshape, then picture, then
unknown. -/
def classify (sh : ExtShape) : SKind :=
  if sh.exposesText then .text
  else if sh.isAutoKind then .autoshape
  else if sh.isPictureKind || sh.hasImageAccessor then .picture
  else .unknown

/-- Modelled from the spec: the core-owned ShapeRecord tagged variant of
section 3 (paragraph detail elided — no claim concerns ParagraphRecords). -/
inductive ShapeRecord where
  | text (geom : Geom) (content : String) (isTitle : Bool)
  | picture (geom : Geom) (dataUri : Option String)
  | autoshape (geom : Geom) (autoName : String) (autoCode : Int)
  | unknown (geom : Geom)
deriving DecidableEq, Repr

/-- The geometry common to every ShapeRecord variant. -/
def ShapeRecord.geom : ShapeRecord → Geom
  | .text g _ _ => g
  | .picture g _ => g
  | .autoshape g _ _ => g
  | .unknown g => g

/-- The kind tag of a ShapeRecord. -/
def ShapeRecord.kind : ShapeRecord → SKind
  | .text _ _ _ => .text
  | .picture _ _ => .picture
  | .autoshape _ _ _ => .autoshape
  | .unknown _ => .unknown

/-- The title flag of a ShapeRecord; only text variants can carry it. -/
def ShapeRecord.titleFlag : ShapeRecord → Bool
  | .text _ _ b => b
  | _ => false

/-- Modelled from the spec: condition (b) and (c) of the title heuristic in
section 4.1 — the presentation height is known and the shape's top
coordinate is strictly less than one quarter of it (`4 * t < h` is the exact
strict comparison against a quarter, with no rounding); an absent top
coordinate cannot qualify. -/
def belowQuarter (presHeight : Option Int) (top : Option Int) : Bool :=
  match presHeight, top with
  | some h, some t => decide (4 * t < h)
  | _, _ => false

/-- A text shape qualifies for the title exactly when it is classified as
text and sits in the top quarter of a known presentation height. -/
def titleQualifies (presHeight : Option Int) (sh : ExtShape) : Bool :=
  sh.exposesText && belowQuarter presHeight sh.geom.top

/-- Modelled from the spec: build one ShapeRecord and the updated
already-titled accumulator (spec sections 4.1 and 9: the first-title-wins
state is an explicit boolean accumulator threaded through the per-shape
fold). Normalization is applied before trimming; a failed autoshape
resolution substitutes the UNKNOWN/0 sentinel; unreadable image bytes give a
picture record with no payload. -/
def mkRecord (presHeight : Option Int) (titled : Bool) (sh : ExtShape) :
    ShapeRecord × Bool :=
  match classify sh with
  | .text =>
      let norm := pyStrip (normalizeSpecial sh.text)
      let isT := !titled && belowQuarter presHeight sh.geom.top
      (.text sh.geom norm isT, titled || isT)
  | .autoshape =>
      let nc := sh.autoType.getD ("UNKNOWN", 0)
      (.autoshape sh.geom nc.1 nc.2, titled)
  | .picture =>
      (.picture sh.geom (sh.imageBytes.map (fun bs => pictureDataUri bs sh.imageB64)),
       titled)
  | .unknown => (.unknown sh.geom, titled)

/-- Modelled from the spec: the per-slide shape fold — every shape, whatever
its branch, appends exactly one record to the slide's shape sequence, in
source traversal order (spec sections 4.1 and 8). -/
def extractShapes (presHeight : Option Int) :
    Bool → List ExtShape → List ShapeRecord
  | _, [] => []
  | titled, sh :: rest =>
      let rt := mkRecord presHeight titled sh
      rt.1 :: extractShapes presHeight rt.2 rest

/-- Specification-side characterization of first-wins title assignment:
keep the first true flag, clear every later flag. Stated from the spec's
words for comparison with the fold `extractShapes`. -/
def firstTrueOnly : List Bool → List Bool
  | [] => []
  | b :: rest => b :: (if b then rest.map (fun _ => false) else firstTrueOnly rest)

/-- Boolean prefix test on character lists. -/
def charsPre : List Char → List Char → Bool
  | [], _ => true
  | _ :: _, [] => false
  | a :: as, b :: bs => a == b && charsPre as bs

/-- Number of positions of `s` at which `pat` occurs as a substring. -/
def countOccAux (p : List Char) : List Char → Nat
  | [] => 0
  | c :: rest => (if charsPre p (c :: rest) then 1 else 0) + countOccAux p rest

/-- Number of occurrences of `pat` in `s`. -/
def countSubstr (s pat : String) : Nat :=
  countOccAux pat.data s.data

/-- Oracle under which every filesystem operation succeeds. -/
def allOk : IOOracle :=
  ⟨true, fun _ => true⟩

/-- Oracle under which directory creation fails. -/
def noMkdir : IOOracle :=
  ⟨false, fun _ => true⟩

/-- The filesystem state after converting an empty presentation into a fresh
directory named `out` on an empty filesystem. -/
def fsv0 : FS :=
  ⟨["out"],
   [("out/script.js", generate_js),
    ("out/styles.css", generate_css),
    ("out/index.html", generate_html (slidesDataAux ("p") false 0 []) false)]⟩

/-- A slide holding one titled text shape, used as a concrete input. -/
def demoTitleSlide : SrcSlide :=
  ⟨[⟨true, "Hello", true⟩], false, false, ""⟩

/-- A slide with non-empty speaker notes, used as a concrete input. -/
def demoNotesA : SrcSlide :=
  ⟨[⟨true, "Hi", true⟩], true, true, "secret plan"⟩

/-- The same slide as `demoNotesA` with different speaker notes. -/
def demoNotesB : SrcSlide :=
  ⟨[⟨true, "Hi", true⟩], true, true, "other notes"⟩

/-- A concrete text shape for the modelled extractor. -/
def demoTextShape : ExtShape :=
  ⟨⟨some 0, some 0, some 100, some 100⟩, true, "Hello", false, none,
   false, false, none, ""⟩

/-- A slide-data record with an empty title, used as a concrete input. -/
def demoNoTitle : SlideData :=
  ⟨1, "", "", [], ""⟩

theorem substChar_value_fixed : ∀ p ∈ specialCharTable, substChar p.2 = p.2 := by
  decide

theorem substChar_idem (c : Char) : substChar (substChar c) = substChar c := by
  cases hf : specialCharTable.find? (fun p => p.1 == c) with
  | none =>
      have hc : substChar c = c := by simp [substChar, hf]
      rw [hc, hc]
  | some p =>
      have hm : p ∈ specialCharTable := List.mem_of_find?_eq_some hf
      have hc : substChar c = p.2 := by simp [substChar, hf]
      rw [hc]
      exact substChar_value_fixed p hm

/-- C9: the special-character normalization — the fixed 8-entry substitution
table mapping private-use code points (arrows, bullets, check mark, cross
mark) to their standard Unicode equivalents — is idempotent: applying the
substitution to already-normalized text yields the same text. -/
theorem c9_normalization_idempotent (s : String) :
    normalizeSpecial (normalizeSpecial s) = normalizeSpecial s := by
  unfold normalizeSpecial
  apply congrArg
  show List.map substChar (List.map substChar s.data) = List.map substChar s.data
  rw [List.map_map]
  exact List.map_congr_left (fun a _ => substChar_idem a)

/-- C6: for a picture shape, the media type of the emitted data URI is
determined by the leading bytes of the payload — the PNG magic bytes
89 50 4E 47 give `image/png`, the JPEG magic bytes FF D8 give `image/jpeg`,
and any other byte sequence defaults to `image/png`; the URI is the
self-describing `data:<mediatype>;base64,<payload>` form. -/
theorem c6_media_type_sniffing (bytes : List Nat) (payload : String) :
    (bytesPre [0x89, 0x50, 0x4E, 0x47] bytes = true →
       pictureMediaType bytes = "image/png") ∧
    (bytesPre [0xFF, 0xD8] bytes = true →
       pictureMediaType bytes = "image/jpeg") ∧
    (bytesPre [0x89, 0x50, 0x4E, 0x47] bytes = false →
       bytesPre [0xFF, 0xD8] bytes = false →
       pictureMediaType bytes = "image/png") ∧
    pictureDataUri bytes payload =
      "data:" ++ pictureMediaType bytes ++ ";base64," ++ payload := by
  refine ⟨?_, ?_, ?_, rfl⟩
  · intro h
    simp [pictureMediaType, sniffFormat, h]
  · intro h
    have hpng : bytesPre [0x89, 0x50, 0x4E, 0x47] bytes = false := by
      cases bytes with
      | nil => simp [bytesPre] at h
      | cons b0 rest =>
          simp only [bytesPre, Bool.and_eq_true, beq_iff_eq] at h
          simp only [bytesPre, Bool.and_eq_false_iff, beq_eq_false_iff_ne]
          left
          omega
    simp [pictureMediaType, sniffFormat, hpng, h]
  · intro h1 h2
    simp [pictureMediaType, sniffFormat, h1, h2]

/-- Witness for C6 at the concrete JPEG payload FF D8 00. -/
theorem c6_witness :
    bytesPre [0xFF, 0xD8] [0xFF, 0xD8, 0x00] = true ∧
    pictureMediaType [0xFF, 0xD8, 0x00] = "image/jpeg" :=
  ⟨rfl, (c6_media_type_sniffing [0xFF, 0xD8, 0x00] ("p")).2.1 rfl⟩

/-- C5: construction fails with the not-found error kind when the path does
not exist, with the format error kind when the lower-cased extension is not
`.pptx`, with the format error kind wrapping the parse diagnostic when the
file does not parse as a presentation, and succeeds otherwise. -/
theorem c5_constructor_contract (pathExists : Bool) (suffixLower pathStr : String)
    (parse : Except String SrcPresentation) :
    (pathExists = false →
       initConverter pathExists suffixLower pathStr parse =
         .error (.fileNotFound ("File not found: " ++ pathStr))) ∧
    (pathExists = true → suffixLower ≠ ".pptx" →
       initConverter pathExists suffixLower pathStr parse =
         .error (.invalidValue ("File must be a .pptx file: " ++ pathStr))) ∧
    (∀ e, pathExists = true → suffixLower = ".pptx" → parse = .error e →
       initConverter pathExists suffixLower pathStr parse =
         .error (.invalidValue ("Invalid PowerPoint file: " ++ e))) ∧
    (∀ p, pathExists = true → suffixLower = ".pptx" → parse = .ok p →
       initConverter pathExists suffixLower pathStr parse = .ok p) := by
  refine ⟨?_, ?_, ?_, ?_⟩
  · intro h
    simp [initConverter, h]
  · intro h hs
    simp [initConverter, h, hs]
  · intro e h hs hp
    simp [initConverter, h, hs, hp]
  · intro p h hs hp
    simp [initConverter, h, hs, hp]

/-- Witness for C5 at a concrete wrong-extension path. -/
theorem c5_witness :
    ((".txt" : String) ≠ ".pptx") ∧
    initConverter true ".txt" "deck.txt" (.ok ⟨[]⟩) =
      .error (.invalidValue ("File must be a .pptx file: " ++ "deck.txt")) :=
  ⟨by decide, (c5_constructor_contract true ".txt" "deck.txt" (.ok ⟨[]⟩)).2.1 rfl (by decide)⟩

/-- C8: in the navigation state machine of the script artifact, from any
state satisfying `1 ≤ currentSlide ≤ totalSlides`, every transition
preserves the invariant; `next` is a no-op at the last slide and otherwise
increments by one, `previous` is a no-op at slide 1 and otherwise decrements
by one, and `goTo(n)` sets the state to `n` exactly when `1 ≤ n ≤
totalSlides` and is a no-op otherwise; the starting state is slide 1. -/
theorem c8_navigation_invariant (total cur n : Int)
    (h1 : 1 ≤ cur) (h2 : cur ≤ total) :
    currentSlideInit = 1 ∧
    (1 ≤ nextSlide total cur ∧ nextSlide total cur ≤ total) ∧
    (cur = total → nextSlide total cur = cur) ∧
    (cur < total → nextSlide total cur = cur + 1) ∧
    (1 ≤ previousSlide cur ∧ previousSlide cur ≤ total) ∧
    (cur = 1 → previousSlide cur = cur) ∧
    (1 < cur → previousSlide cur = cur - 1) ∧
    (1 ≤ goToSlide total cur n ∧ goToSlide total cur n ≤ total) ∧
    (1 ≤ n ∧ n ≤ total → goToSlide total cur n = n) ∧
    (¬(1 ≤ n ∧ n ≤ total) → goToSlide total cur n = cur) := by
  unfold currentSlideInit nextSlide previousSlide goToSlide
  refine ⟨rfl, ?_, ?_, ?_, ?_, ?_, ?_, ?_, ?_, ?_⟩ <;>
    · split_ifs <;> omega

/-- Witness for C8 at the concrete state `total = 3`, `cur = 2`. -/
theorem c8_witness :
    (1 ≤ (2 : Int)) ∧ ((2 : Int) ≤ 3) ∧ nextSlide 3 2 = 2 + 1 :=
  ⟨by decide, by decide,
   (c8_navigation_invariant 3 2 5 (by decide) (by decide)).2.2.2.1 (by decide)⟩

theorem classify_text_iff (sh : ExtShape) :
    classify sh = SKind.text ↔ sh.exposesText = true := by
  unfold classify
  cases he : sh.exposesText with
  | true => simp
  | false =>
      simp only [Bool.false_eq_true, if_false]
      constructor
      · intro hc
        split_ifs at hc <;> simp_all
      · intro hc
        simp at hc

theorem exposesText_of_not_text {sh : ExtShape} (h : classify sh ≠ SKind.text) :
    sh.exposesText = false := by
  cases he : sh.exposesText
  · rfl
  · exact absurd ((classify_text_iff sh).mpr he) h

theorem mkRecord_titleFlag (ph : Option Int) (titled : Bool) (sh : ExtShape) :
    (mkRecord ph titled sh).1.titleFlag = (!titled && titleQualifies ph sh) := by
  cases hc : classify sh with
  | text =>
      have he := (classify_text_iff sh).mp hc
      simp [mkRecord, hc, ShapeRecord.titleFlag, titleQualifies, he]
  | picture =>
      have he : sh.exposesText = false := exposesText_of_not_text (by simp [hc])
      simp [mkRecord, hc, ShapeRecord.titleFlag, titleQualifies, he]
  | autoshape =>
      have he : sh.exposesText = false := exposesText_of_not_text (by simp [hc])
      simp [mkRecord, hc, ShapeRecord.titleFlag, titleQualifies, he]
  | unknown =>
      have he : sh.exposesText = false := exposesText_of_not_text (by simp [hc])
      simp [mkRecord, hc, ShapeRecord.titleFlag, titleQualifies, he]

theorem mkRecord_acc (ph : Option Int) (titled : Bool) (sh : ExtShape) :
    (mkRecord ph titled sh).2 = (titled || (!titled && titleQualifies ph sh)) := by
  cases hc : classify sh with
  | text =>
      have he := (classify_text_iff sh).mp hc
      simp [mkRecord, hc, titleQualifies, he]
  | picture =>
      have he : sh.exposesText = false := exposesText_of_not_text (by simp [hc])
      simp [mkRecord, hc, titleQualifies, he]
  | autoshape =>
      have he : sh.exposesText = false := exposesText_of_not_text (by simp [hc])
      simp [mkRecord, hc, titleQualifies, he]
  | unknown =>
      have he : sh.exposesText = false := exposesText_of_not_text (by simp [hc])
      simp [mkRecord, hc, titleQualifies, he]

theorem extractShapes_flags_titled (ph : Option Int) (shapes : List ExtShape) :
    (extractShapes ph true shapes).map ShapeRecord.titleFlag =
      shapes.map (fun _ => false) := by
  induction shapes with
  | nil => rfl
  | cons sh rest ih =>
      simp [extractShapes, mkRecord_titleFlag, mkRecord_acc, ih]

theorem extractShapes_flags (ph : Option Int) (shapes : List ExtShape) :
    (extractShapes ph false shapes).map ShapeRecord.titleFlag =
      firstTrueOnly (shapes.map (titleQualifies ph)) := by
  induction shapes with
  | nil => rfl
  | cons sh rest ih =>
      cases hq : titleQualifies ph sh with
      | false =>
          simp [extractShapes, mkRecord_titleFlag, mkRecord_acc, hq, firstTrueOnly, ih]
      | true =>
          simp [extractShapes, mkRecord_titleFlag, mkRecord_acc, hq, firstTrueOnly,
                extractShapes_flags_titled, List.map_map, Function.comp]

theorem belowQuarter_none (t : Option Int) : belowQuarter none t = false := by
  cases t <;> rfl

theorem titleQualifies_none (sh : ExtShape) : titleQualifies none sh = false := by
  simp [titleQualifies, belowQuarter_none]

theorem firstTrueOnly_all_false (l : List Bool) (h : ∀ b ∈ l, b = false) :
    firstTrueOnly l = l := by
  induction l with
  | nil => rfl
  | cons b rest ih =>
      have hb := h b (by simp)
      subst hb
      simp [firstTrueOnly, ih (fun x hx => h x (by simp [hx]))]

theorem count_true_of_all_false {l : List Bool} (h : ∀ b ∈ l, b = false) :
    l.count true = 0 := by
  rw [List.count_eq_zero]
  intro hmem
  simpa using h true hmem

theorem firstTrueOnly_count (l : List Bool) : (firstTrueOnly l).count true ≤ 1 := by
  induction l with
  | nil => simp [firstTrueOnly]
  | cons b rest ih =>
      cases b with
      | false => simpa [firstTrueOnly, List.count_cons] using ih
      | true =>
          simp [firstTrueOnly, List.count_cons, List.count_replicate]

/-- C1: in the modelled extractor, a text shape is flagged as the slide
title exactly when no title has been assigned yet, the presentation height
is known, and the shape's top coordinate is strictly below one quarter of
that height (`titleQualifies`); the first qualifying shape wins
(`firstTrueOnly`), a null presentation height yields no title at all, and
at most one shape per slide carries the flag. -/
theorem c1_title_inference (ph : Option Int) (shapes : List ExtShape) :
    (extractShapes ph false shapes).map ShapeRecord.titleFlag =
      firstTrueOnly (shapes.map (titleQualifies ph)) ∧
    (ph = none →
      (extractShapes ph false shapes).map ShapeRecord.titleFlag =
        shapes.map (fun _ => false)) ∧
    ((extractShapes ph false shapes).map ShapeRecord.titleFlag).count true ≤ 1 := by
  refine ⟨extractShapes_flags ph shapes, ?_, ?_⟩
  · intro h
    subst h
    rw [extractShapes_flags]
    have hq : shapes.map (titleQualifies none) = shapes.map (fun _ => false) :=
      List.map_congr_left (fun sh _ => titleQualifies_none sh)
    rw [hq]
    apply firstTrueOnly_all_false
    intro b hb
    rcases List.mem_map.mp hb with ⟨a, _, hfa⟩
    exact hfa.symm
  · rw [extractShapes_flags]
    exact firstTrueOnly_count _

/-- Witness for C1: with an unknown presentation height, no shape becomes
the title. -/
theorem c1_witness :
    (extractShapes (none : Option Int) false [demoTextShape]).map ShapeRecord.titleFlag =
      [demoTextShape].map (fun _ => false) :=
  (c1_title_inference none [demoTextShape]).2.1 rfl

/-- C2: the modelled extractor appends exactly one record per source shape,
whatever its kind — the record sequence has the source's length, and
position by position carries the source shape's geometry and its classified
kind, so traversal order is preserved and no shape is dropped. -/
theorem c2_all_shapes_appended (ph : Option Int) (titled : Bool)
    (shapes : List ExtShape) :
    (extractShapes ph titled shapes).length = shapes.length ∧
    (extractShapes ph titled shapes).map ShapeRecord.geom =
      shapes.map ExtShape.geom ∧
    (extractShapes ph titled shapes).map ShapeRecord.kind =
      shapes.map classify := by
  induction shapes generalizing titled with
  | nil => exact ⟨rfl, rfl, rfl⟩
  | cons sh rest ih =>
      have hg : (mkRecord ph titled sh).1.geom = sh.geom := by
        cases hc : classify sh <;> simp [mkRecord, hc, ShapeRecord.geom]
      have hk : (mkRecord ph titled sh).1.kind = classify sh := by
        cases hc : classify sh <;> simp [mkRecord, hc, ShapeRecord.kind]
      obtain ⟨ih1, ih2, ih3⟩ := ih (mkRecord ph titled sh).2
      refine ⟨?_, ?_, ?_⟩ <;> simp [extractShapes, hg, hk, ih1, ih2, ih3]

theorem extract_title_of_shapes (s : SrcSlide) :
    (extract_slide_content s).title =
      (s.shapes.foldl extractStep ⟨"", [], ""⟩).title := by
  unfold extract_slide_content
  split <;> rfl

theorem extract_text_of_shapes (s : SrcSlide) :
    (extract_slide_content s).text =
      (s.shapes.foldl extractStep ⟨"", [], ""⟩).text := by
  unfold extract_slide_content
  split <;> rfl

theorem slideData_notes_off (payload : String) (i : Nat) {s t : SrcSlide}
    (h : s.shapes = t.shapes) :
    slideData payload false i s = slideData payload false i t := by
  have hf : s.shapes.foldl extractStep ⟨"", [], ""⟩ =
      t.shapes.foldl extractStep ⟨"", [], ""⟩ := by rw [h]
  simp [slideData, extract_title_of_shapes, extract_text_of_shapes, hf]

theorem slidesDataAux_notes_off (payload : String) :
    ∀ (l l' : List SrcSlide),
      l.map SrcSlide.shapes = l'.map SrcSlide.shapes →
      ∀ i, slidesDataAux payload false i l = slidesDataAux payload false i l' := by
  intro l
  induction l with
  | nil =>
      intro l' h i
      have hl : l' = [] := List.map_eq_nil_iff.mp h.symm
      subst hl
      rfl
  | cons s rest ih =>
      intro l' h i
      cases l' with
      | nil => simp at h
      | cons t rest' =>
          simp only [List.map_cons, List.cons.injEq] at h
          simp only [slidesDataAux]
          rw [slideData_notes_off payload i h.1, ih rest' h.2 (i + 1)]

theorem slidesDataAux_notes_empty (payload : String) :
    ∀ (i : Nat) (l : List SrcSlide) (d : SlideData),
      d ∈ slidesDataAux payload false i l → d.notes = "" := by
  intro i l
  induction l generalizing i with
  | nil =>
      intro d hd
      simp [slidesDataAux] at hd
  | cons s rest ih =>
      intro d hd
      simp only [slidesDataAux, List.mem_cons] at hd
      cases hd with
      | inl h => subst h; rfl
      | inr h => exact ih (i + 1) d h

/-- C3: with `includeNotes = false` no notes content reaches the markup —
two slide lists with the same shapes but arbitrarily different speaker
notes render to identical markup, and every assembled slide record carries
an empty notes field. -/
theorem c3_notes_suppressed (payload : String) (slides slides' : List SrcSlide)
    (h : slides.map SrcSlide.shapes = slides'.map SrcSlide.shapes) :
    generate_html (slidesDataAux payload false 0 slides) false =
      generate_html (slidesDataAux payload false 0 slides') false ∧
    (∀ d ∈ slidesDataAux payload false 0 slides, d.notes = "") := by
  constructor
  · rw [slidesDataAux_notes_off payload slides slides' h 0]
  · exact fun d hd => slidesDataAux_notes_empty payload 0 slides d hd

/-- Witness for C3 at two concrete slides differing only in their notes. -/
theorem c3_witness :
    ([demoNotesA].map SrcSlide.shapes = [demoNotesB].map SrcSlide.shapes) ∧
    generate_html (slidesDataAux ("p") false 0 [demoNotesA]) false =
      generate_html (slidesDataAux ("p") false 0 [demoNotesB]) false :=
  ⟨rfl, (c3_notes_suppressed ("p") [demoNotesA] [demoNotesB] rfl).1⟩

/-- Counterexample to C7: converting the same slides under two different
source filename stems yields the very same markup, whose page title is the
first slide's extracted title `Hello` — equal to neither stem — so the page
title is not derived from the source document's base filename. -/
theorem c7_counterexample :
    convertMarkup ("Alpha") ("p") [demoTitleSlide] false =
      convertMarkup ("Beta") ("p") [demoTitleSlide] false ∧
    page_title (slidesDataAux ("p") false 0 [demoTitleSlide]) = "Hello" ∧
    ("Hello" : String) ≠ "Alpha" ∧ ("Hello" : String) ≠ "Beta" := by
  refine ⟨rfl, ?_, by decide, by decide⟩
  rfl

/-- C7 as amended: the page title is the first slide's extracted title,
falling back to the literal `Presentation` when the deck is empty or that
title is empty; this policy is applied consistently, and the source
filename stem never influences the markup. -/
theorem c7_page_title_policy (stem stem' payload : String)
    (slides : List SrcSlide) (inc : Bool) :
    convertMarkup stem payload slides inc = convertMarkup stem' payload slides inc ∧
    (∀ d rest, page_title (d :: rest) =
       if d.title = "" then "Presentation" else d.title) ∧
    page_title [] = "Presentation" := by
  refine ⟨rfl, ?_, rfl⟩
  intro d rest
  by_cases hd : d.title = "" <;> simp [page_title, hd]

set_option maxRecDepth 10000 in
/-- C10: converting a zero-slide presentation succeeds, its markup has the
literal fallback page title `Presentation` in the title element and zero
slide containers, and a first slide with an empty extracted title also gets
the fallback title rather than anything filename-derived. -/
theorem c10_fallback_title (d : SlideData) (rest : List SlideData)
    (hd : d.title = "") (payload : String) (fs : FS) :
    page_title [] = "Presentation" ∧
    page_title (d :: rest) = "Presentation" ∧
    countSubstr (generate_html [] false) ("data-slide=") = 0 ∧
    countSubstr (generate_html [] false) ("<title>Presentation</title>") = 1 ∧
    (convert allOk ("out") payload [] false fs).isOk = true := by
  refine ⟨rfl, ?_, by decide, by decide, ?_⟩
  · simp [page_title, hd]
  · simp [convert, mkdirP, writeText, allOk, Except.isOk, Except.toBool]

/-- Witness for C10 at a concrete empty-titled slide record. -/
theorem c10_witness :
    (demoNoTitle.title = "") ∧ page_title (demoNoTitle :: []) = "Presentation" :=
  ⟨rfl, (c10_fallback_title demoNoTitle [] rfl ("p") ⟨[], []⟩).2.1⟩

theorem append_right_ne (s : String) {a b : String} (h : a ≠ b) :
    s ++ a ≠ s ++ b := by
  intro he
  apply h
  apply String.ext
  have hd := congrArg String.data he
  rw [String.data_append, String.data_append] at hd
  exact List.append_cancel_left hd

/-- C4: `convert` on success returns the path of the markup file inside the
output directory, the directory exists afterwards, all three artifacts —
`index.html`, `styles.css`, `script.js` — exist with their generated
contents, and nothing beyond those three and the pre-existing files is on
disk; if the directory cannot be created, or any artifact cannot be
written, the whole conversion reports an I/O error instead of partially
succeeding silently. -/
theorem c4_convert_contract (o : IOOracle) (outDir payload : String)
    (slides : List SrcSlide) (inc : Bool) (fs : FS) :
    (∀ fsv path, convert o outDir payload slides inc fs = .ok (fsv, path) →
       path = outDir ++ "/index.html" ∧
       outDir ∈ fsv.dirs ∧
       readFile fsv (outDir ++ "/index.html") =
         some (generate_html (slidesDataAux payload inc 0 slides) inc) ∧
       readFile fsv (outDir ++ "/styles.css") = some generate_css ∧
       readFile fsv (outDir ++ "/script.js") = some generate_js ∧
       (∀ p c, (p, c) ∈ fsv.files →
          p = outDir ++ "/index.html" ∨ p = outDir ++ "/styles.css" ∨
          p = outDir ++ "/script.js" ∨ (p, c) ∈ fs.files)) ∧
    (o.mkdirOk = false →
       ∃ e, convert o outDir payload slides inc fs = .error e) ∧
    (o.writeOk (outDir ++ "/index.html") = false ∨
     o.writeOk (outDir ++ "/styles.css") = false ∨
     o.writeOk (outDir ++ "/script.js") = false →
       ∃ e, convert o outDir payload slides inc fs = .error e) := by
  have ne_ic : (outDir ++ "/index.html") ≠ (outDir ++ "/styles.css") :=
    append_right_ne _ (by decide)
  have ne_ij : (outDir ++ "/index.html") ≠ (outDir ++ "/script.js") :=
    append_right_ne _ (by decide)
  have ne_cj : (outDir ++ "/styles.css") ≠ (outDir ++ "/script.js") :=
    append_right_ne _ (by decide)
  have b_ji : ((outDir ++ "/script.js") == (outDir ++ "/index.html")) = false :=
    beq_eq_false_iff_ne.mpr (Ne.symm ne_ij)
  have b_jc : ((outDir ++ "/script.js") == (outDir ++ "/styles.css")) = false :=
    beq_eq_false_iff_ne.mpr (Ne.symm ne_cj)
  have b_ci : ((outDir ++ "/styles.css") == (outDir ++ "/index.html")) = false :=
    beq_eq_false_iff_ne.mpr (Ne.symm ne_ic)
  have n_cj : ((outDir ++ "/styles.css") != (outDir ++ "/script.js")) = true :=
    bne_iff_ne.mpr ne_cj
  have n_ij : ((outDir ++ "/index.html") != (outDir ++ "/script.js")) = true :=
    bne_iff_ne.mpr ne_ij
  have n_ic : ((outDir ++ "/index.html") != (outDir ++ "/styles.css")) = true :=
    bne_iff_ne.mpr ne_ic
  refine ⟨?_, ?_, ?_⟩
  · intro fsv path hok
    by_cases hm : o.mkdirOk
    · by_cases h1 : o.writeOk (outDir ++ "/index.html")
      · by_cases h2 : o.writeOk (outDir ++ "/styles.css")
        · by_cases h3 : o.writeOk (outDir ++ "/script.js")
          · simp only [convert, mkdirP, writeText, hm, h1, h2, h3, if_true,
              Except.ok.injEq, Prod.mk.injEq] at hok
            obtain ⟨hfsv, hpath⟩ := hok
            subst hfsv
            subst hpath
            refine ⟨rfl, ?_, ?_, ?_, ?_, ?_⟩
            · show outDir ∈ (if outDir ∈ fs.dirs then fs.dirs else outDir :: fs.dirs)
              split_ifs with h
              · exact h
              · exact List.mem_cons_self _ _
            · simp [readFile, List.find?, List.filter, b_ji, b_jc, b_ci,
                n_cj, n_ij, n_ic]
            · simp [readFile, List.find?, List.filter, b_ji, b_jc, b_ci,
                n_cj, n_ij, n_ic]
            · simp [readFile, List.find?, List.filter, b_ji, b_jc, b_ci,
                n_cj, n_ij, n_ic]
            · intro p c hp
              simp only [List.mem_cons] at hp
              rcases hp with h | hp
              · right; right; left
                exact congrArg Prod.fst h
              · have hp2 := (List.mem_filter.mp hp).1
                simp only [List.mem_cons] at hp2
                rcases hp2 with h | hp2
                · right; left
                  exact congrArg Prod.fst h
                · have hp3 := (List.mem_filter.mp hp2).1
                  simp only [List.mem_cons] at hp3
                  rcases hp3 with h | hp3
                  · left
                    exact congrArg Prod.fst h
                  · right; right; right
                    exact (List.mem_filter.mp hp3).1
          · simp [convert, mkdirP, writeText, hm, h1, h2, h3] at hok
        · simp [convert, mkdirP, writeText, hm, h1, h2] at hok
      · simp [convert, mkdirP, writeText, hm, h1] at hok
    · simp [convert, mkdirP, hm] at hok
  · intro hm
    exact ⟨"OSError: cannot create directory " ++ outDir,
      by simp [convert, mkdirP, hm]⟩
  · intro hw
    by_cases hm : o.mkdirOk
    · by_cases h1 : o.writeOk (outDir ++ "/index.html")
      · by_cases h2 : o.writeOk (outDir ++ "/styles.css")
        · by_cases h3 : o.writeOk (outDir ++ "/script.js")
          · rcases hw with hw | hw | hw
            · rw [h1] at hw; cases hw
            · rw [h2] at hw; cases hw
            · rw [h3] at hw; cases hw
          · exact ⟨"OSError: cannot write " ++ (outDir ++ "/script.js"),
              by simp [convert, mkdirP, writeText, hm, h1, h2, h3]⟩
        · exact ⟨"OSError: cannot write " ++ (outDir ++ "/styles.css"),
            by simp [convert, mkdirP, writeText, hm, h1, h2]⟩
      · exact ⟨"OSError: cannot write " ++ (outDir ++ "/index.html"),
          by simp [convert, mkdirP, writeText, hm, h1]⟩
    · exact ⟨"OSError: cannot create directory " ++ outDir,
        by simp [convert, mkdirP, hm]⟩

/-- Witness for C4: a successful run on an empty filesystem keeps the output
directory, and a failing mkdir oracle makes the conversion report an error. -/
theorem c4_witness :
    ("out" ∈ fsv0.dirs) ∧
    (∃ e, convert noMkdir ("out") ("p") [] false ⟨[], []⟩ = .error e) :=
  ⟨((c4_convert_contract allOk ("out") ("p") [] false ⟨[], []⟩).1 fsv0
      ("out/index.html") rfl).2.1,
   (c4_convert_contract noMkdir ("out") ("p") [] false ⟨[], []⟩).2.1 rfl⟩

end Pptx
